import Mathlib

/-!
Verification of the blazar reservation/allocation engine against its
specification.  The Python sources under `blazar/plugins` (device plugin,
physical-host plugin, monitor) are shallowly embedded as executable Lean
functions over explicit state records.  Store mutations are modelled by
state passing plus an event trace; a raised exception is modelled by an
error value returned together with the state as it was at raise time, so
"no mutation on failure" is a provable statement about the returned state.

Code of the repository that is not part of the provided sources (the period
calculus in `blazar/db/utils.py`, `blazar/utils/plugins.py` and
`blazar/plugins/base.py`) is modelled from the specification; each such
definition carries a doc comment saying so.
-/

namespace Blazar

/-- A half-open time interval `[start, stop)`, the shape of a lease window
and of the periods returned by the period calculus.  Instants are plain
integers (minutes); `datetime` arithmetic becomes `Int` arithmetic. -/
structure Window where
  start : Int
  stop : Int
deriving DecidableEq, Repr

/-! ## Period calculus

Modelled from the spec: `get_free_periods` / `get_reserved_periods` live in
`blazar/db/utils.py`, which is not among the provided sources; only their
call sites are.  Spec §4.1: reserved periods are the merge of all lease
windows that intersect the probe window `[s,e)`, after padding each by the
cleaning margin `m` on both sides (touching padded intervals merge into
one); free periods are the ordered complement of the reserved periods
within the probe window.  The `duration` argument the call sites pass is
given no role by the spec and is therefore not a parameter here. -/

/-- Pad a window by the cleaning margin `m` on both sides (spec §4.1). -/
def padWindow (m : Int) (w : Window) : Window := ⟨w.start - m, w.stop + m⟩

/-- Does `w` intersect the half-open probe window `[s, e)`? -/
def intersectsProbe (s e : Int) (w : Window) : Bool :=
  decide (w.start < e) && decide (s < w.stop)

/-- Clip a window to the probe window. -/
def clipWindow (s e : Int) (w : Window) : Window := ⟨max s w.start, min e w.stop⟩

/-- Insert a window into a list sorted by start time. -/
def insertByStart (w : Window) : List Window → List Window
  | [] => [w]
  | x :: xs => if w.start ≤ x.start then w :: x :: xs else x :: insertByStart w xs

/-- Sort windows by start time (insertion sort). -/
def sortByStart (l : List Window) : List Window := l.foldr insertByStart []

/-- Merge a run of overlapping or touching windows, left to right, starting
from the current window `cur`. -/
def mergeAux (cur : Window) : List Window → List Window
  | [] => [cur]
  | b :: rest =>
    if b.start ≤ cur.stop then mergeAux ⟨cur.start, max cur.stop b.stop⟩ rest
    else cur :: mergeAux b rest

/-- Merge adjacent/touching windows of a sorted list into maximal runs. -/
def mergeTouching : List Window → List Window
  | [] => []
  | w :: rest => mergeAux w rest

/-- Modelled from the spec: the reserved periods of a resource whose
allocations carry the lease windows `aw`, for probe window `[s, e)` and
cleaning margin `m` (spec §4.1). -/
def reservedPeriods (aw : List Window) (s e : Int) (m : Int) : List Window :=
  mergeTouching (sortByStart (((aw.map (padWindow m)).filter (intersectsProbe s e)).map (clipWindow s e)))

/-- The ordered complement of a sorted disjoint list of windows inside
`[s, e)`. -/
def complementIn (s e : Int) : List Window → List Window
  | [] => if s < e then [⟨s, e⟩] else []
  | w :: rest => (if s < w.start then [⟨s, w.start⟩] else []) ++ complementIn w.stop e rest

/-- Modelled from the spec: `get_free_periods` of `blazar/db/utils.py`
(missing from the sources): the ordered complement of the reserved periods
within the probe window (spec §4.1). -/
def freePeriods (aw : List Window) (s e : Int) (m : Int) : List Window :=
  complementIn s e (reservedPeriods aw s e m)

/-! ### Period-calculus lemmas -/

theorem mem_insertByStart {x w : Window} {l : List Window} :
    x ∈ insertByStart w l ↔ x = w ∨ x ∈ l := by
  induction l with
  | nil => simp [insertByStart]
  | cons y ys ih =>
    by_cases h : w.start ≤ y.start
    · simp [insertByStart, h]
    · simp [insertByStart, h, ih]
      tauto

theorem mem_sortByStart {x : Window} {l : List Window} :
    x ∈ sortByStart l ↔ x ∈ l := by
  induction l with
  | nil => simp [sortByStart]
  | cons y ys ih =>
    simp only [sortByStart, List.foldr] at *
    rw [mem_insertByStart, ih]
    simp

theorem length_insertByStart (w : Window) (l : List Window) :
    (insertByStart w l).length = l.length + 1 := by
  induction l with
  | nil => rfl
  | cons y ys ih =>
    by_cases h : w.start ≤ y.start
    · simp [insertByStart, h]
    · simp [insertByStart, h, ih]

theorem length_sortByStart (l : List Window) :
    (sortByStart l).length = l.length := by
  induction l with
  | nil => rfl
  | cons y ys ih =>
    simp only [sortByStart, List.foldr] at *
    rw [length_insertByStart, ih, List.length_cons]

theorem mergeAux_ne_nil (cur : Window) (l : List Window) :
    mergeAux cur l ≠ [] := by
  induction l generalizing cur with
  | nil => simp [mergeAux]
  | cons b rest ih =>
    by_cases h : b.start ≤ cur.stop
    · simpa [mergeAux, h] using ih _
    · simp [mergeAux, h]

theorem mergeTouching_eq_nil_iff {l : List Window} :
    mergeTouching l = [] ↔ l = [] := by
  cases l with
  | nil => simp [mergeTouching]
  | cons w rest => simp [mergeTouching, mergeAux_ne_nil]

/-- Any property preserved by the merging step holds for all members of a
merged list. -/
theorem mem_mergeAux_pred (P : Window → Prop)
    (hP : ∀ a b : Window, P a → P b → P ⟨a.start, max a.stop b.stop⟩)
    {cur : Window} {l : List Window} (hcur : P cur) (hl : ∀ w ∈ l, P w) :
    ∀ w ∈ mergeAux cur l, P w := by
  induction l generalizing cur with
  | nil => simpa [mergeAux] using hcur
  | cons b rest ih =>
    intro w hw
    by_cases h : b.start ≤ cur.stop
    · rw [mergeAux, if_pos h] at hw
      exact ih (hP cur b hcur (hl b (by simp))) (fun x hx => hl x (by simp [hx])) w hw
    · rw [mergeAux, if_neg h] at hw
      rcases List.mem_cons.mp hw with rfl | hw
      · exact hcur
      · exact ih (hl b (by simp)) (fun x hx => hl x (by simp [hx])) w hw

theorem mem_mergeTouching_pred (P : Window → Prop)
    (hP : ∀ a b : Window, P a → P b → P ⟨a.start, max a.stop b.stop⟩)
    {l : List Window} (hl : ∀ w ∈ l, P w) :
    ∀ w ∈ mergeTouching l, P w := by
  cases l with
  | nil => simp [mergeTouching]
  | cons w rest =>
    exact mem_mergeAux_pred P hP (hl w (by simp)) (fun x hx => hl x (by simp [hx]))

/-- Every gap emitted by `complementIn` starts either at the left edge or at
the stop of one of the windows. -/
theorem complementIn_gap_start {a e : Int} {l : List Window} :
    ∀ g ∈ complementIn a e l, g.start = a ∨ ∃ w ∈ l, g.start = w.stop := by
  induction l generalizing a with
  | nil =>
    intro g hg
    simp only [complementIn] at hg
    split at hg
    · left; rcases List.mem_singleton.mp hg with rfl; rfl
    · simp at hg
  | cons w rest ih =>
    intro g hg
    simp only [complementIn, List.mem_append] at hg
    rcases hg with hg | hg
    · split at hg
      · left; rcases List.mem_singleton.mp hg with rfl; rfl
      · simp at hg
    · rcases ih g hg with h | ⟨w', hw', h⟩
      · right; exact ⟨w, by simp, h⟩
      · right; exact ⟨w', by simp [hw'], h⟩

/-- Every gap emitted by `complementIn` is nonempty. -/
theorem complementIn_gap_lt {a e : Int} {l : List Window} :
    ∀ g ∈ complementIn a e l, g.start < g.stop := by
  induction l generalizing a with
  | nil =>
    intro g hg
    simp only [complementIn] at hg
    split at hg
    · rcases List.mem_singleton.mp hg with rfl; assumption
    · simp at hg
  | cons w rest ih =>
    intro g hg
    simp only [complementIn, List.mem_append] at hg
    rcases hg with hg | hg
    · split at hg
      · rcases List.mem_singleton.mp hg with rfl; assumption
      · simp at hg
    · exact ih g hg

/-- A nonempty reserved list whose members all protrude into the probe
window cannot have the whole probe window as complement. -/
theorem complementIn_ne_single {a e : Int} {l : List Window}
    (hQ : ∀ w ∈ l, a < w.stop ∧ w.start < e) (hne : l ≠ []) :
    complementIn a e l ≠ [⟨a, e⟩] := by
  cases l with
  | nil => exact absurd rfl hne
  | cons w rest =>
    intro hcontra
    by_cases h : a < w.start
    · have : (⟨a, w.start⟩ : Window) = ⟨a, e⟩ := by
        have := congrArg (fun t => t.head?) hcontra
        simpa [complementIn, h] using this
      have hwe : w.start = e := congrArg Window.stop this
      exact absurd hwe (ne_of_lt (hQ w (by simp)).2)
    · rw [complementIn, if_neg h, List.nil_append] at hcontra
      have hmem : (⟨a, e⟩ : Window) ∈ complementIn w.stop e rest := by
        rw [hcontra]; simp
      rcases complementIn_gap_start _ hmem with hstart | ⟨w', hw', hstart⟩
      · exact absurd hstart (ne_of_lt (hQ w (by simp)).1)
      · exact absurd hstart (ne_of_lt (hQ w' (by simp [hw'])).1)

/-- Main period-calculus characterisation: the free periods of a probe
window are exactly the whole probe window iff the window is nonempty and no
margin-padded booking intersects it. -/
theorem freePeriods_eq_single_iff (aw : List Window) (s e : Int) (m : Int) :
    freePeriods aw s e m = [⟨s, e⟩] ↔
      s < e ∧ ∀ w ∈ aw, intersectsProbe s e (padWindow m w) = false := by
  constructor
  · intro h
    have hse : s < e := by
      have hmem : (⟨s, e⟩ : Window) ∈ freePeriods aw s e m := by rw [h]; simp
      exact complementIn_gap_lt _ hmem
    refine ⟨hse, ?_⟩
    by_contra hcon
    push_neg at hcon
    rcases hcon with ⟨w, hw, hwi⟩
    have hwi : intersectsProbe s e (padWindow m w) = true := by
      revert hwi; cases intersectsProbe s e (padWindow m w) <;> simp
    -- the filtered list is nonempty, hence so is the merged reserved list
    have hfil : padWindow m w ∈ (aw.map (padWindow m)).filter (intersectsProbe s e) := by
      rw [List.mem_filter]
      exact ⟨List.mem_map_of_mem _ hw, hwi⟩
    have hne : reservedPeriods aw s e m ≠ [] := by
      rw [Ne, reservedPeriods, mergeTouching_eq_nil_iff]
      intro hnil
      have : ((aw.map (padWindow m)).filter (intersectsProbe s e)).length = 0 := by
        have := congrArg List.length hnil
        simpa [length_sortByStart] using this
      rw [List.length_eq_zero] at this
      rw [this] at hfil
      simp at hfil
    -- every member of the reserved list protrudes into the probe window
    have hQ : ∀ x ∈ reservedPeriods aw s e m, s < x.stop ∧ x.start < e := by
      apply mem_mergeTouching_pred
      · rintro ⟨a1, a2⟩ ⟨b1, b2⟩ ha hb
        exact ⟨lt_max_of_lt_left ha.1, ha.2⟩
      · intro x hx
        rw [mem_sortByStart] at hx
        rcases List.mem_map.mp hx with ⟨y, hy, rfl⟩
        rcases List.mem_filter.mp hy with ⟨_, hyint⟩
        simp only [intersectsProbe, Bool.and_eq_true, decide_eq_true_eq] at hyint
        constructor
        · simp only [clipWindow]
          exact lt_min hse hyint.2
        · simp only [clipWindow]
          exact max_lt hse hyint.1
    exact complementIn_ne_single hQ hne h
  · rintro ⟨hse, hnone⟩
    have hfil : (aw.map (padWindow m)).filter (intersectsProbe s e) = [] := by
      rw [List.filter_eq_nil_iff]
      intro x hx
      rcases List.mem_map.mp hx with ⟨y, hy, rfl⟩
      simp [hnone y hy]
    rw [freePeriods, reservedPeriods, hfil]
    simp [sortByStart, mergeTouching, complementIn, hse]

/-! ## Data model

The entity records mirror the Store rows the plugins read and write.
Property filters are modelled extensionally: `blazar/utils/plugins.py`
(`convert_requirements`) is not among the provided sources, so, following
spec §4.2 step 1 ("evaluate the filter against the resource catalog →
candidate set"), a filter is `none` (the empty filter string, matching
everything) or the set of resource ids its clauses select. -/

abbrev Filter := Option (List Nat)

/-- Does the resource with id `rid` match the filter? -/
def matchesFilter (f : Filter) (rid : Nat) : Bool :=
  match f with
  | none => true
  | some ids => ids.contains rid

inductive RStatus
  | pending
  | active
  | completed
deriving DecidableEq, Repr

structure Lease where
  id : Nat
  start_date : Int
  end_date : Int
  project_id : Nat
  degraded : Bool
deriving DecidableEq, Repr

structure Reservation where
  id : Nat
  lease_id : Nat
  resource_id : Nat
  status : RStatus
  missing_resources : Bool
  resources_changed : Bool
deriving DecidableEq, Repr

structure Device where
  id : Nat
  reservable : Bool
  authorized_projects : Option (List Nat)
deriving DecidableEq, Repr

structure DeviceAllocation where
  id : Nat
  device_id : Nat
  reservation_id : Nat
deriving DecidableEq, Repr

structure DeviceReservation where
  id : Nat
  reservation_id : Nat
  count_range : Int × Int
  resource_properties : Filter
deriving DecidableEq, Repr

structure Host where
  id : Nat
  reservable : Bool
deriving DecidableEq, Repr

structure HostAllocation where
  id : Nat
  compute_host_id : Nat
  reservation_id : Nat
deriving DecidableEq, Repr

structure HostReservation where
  id : Nat
  reservation_id : Nat
  count_range : Int × Int
  hypervisor_properties : Filter
  resource_properties : Filter
deriving DecidableEq, Repr

/-- The Store state seen by the device plugin.  `next_id` generates fresh
row ids. -/
structure DeviceState where
  devices : List Device
  leases : List Lease
  reservations : List Reservation
  device_reservations : List DeviceReservation
  allocations : List DeviceAllocation
  next_id : Nat
deriving DecidableEq, Repr

/-- The Store state seen by the physical-host plugin. -/
structure HostState where
  hosts : List Host
  leases : List Lease
  reservations : List Reservation
  host_reservations : List HostReservation
  allocations : List HostAllocation
  next_id : Nat
deriving DecidableEq, Repr

/-- Manager-level errors raised by the plugins. -/
inductive MgrErr
  | missingParameter (p : String)
  | malformedParameter (p : String)
  | invalidRange
  | notEnoughHostsAvailable
  | notEnoughDevicesAvailable
  | notFound
deriving DecidableEq, Repr

/-- Store events, logged in the order the corresponding `db_api` mutation
calls (and matcher runs) happen. -/
inductive Event
  | matcher_run (props : Filter) (cmin cmax : Nat) (s e : Int)
  | matcher_run_host (hprops rprops : Filter) (cmin cmax : Nat) (s e : Int)
  | alloc_created (resource_id reservation_id : Nat)
  | alloc_destroyed (alloc_id : Nat)
  | alloc_updated (alloc_id new_resource_id : Nat)
  | detail_created (detail_id : Nat)
  | detail_updated (detail_id : Nat)
  | reservation_updated (reservation_id : Nat)
  | lease_updated (lease_id : Nat)
deriving DecidableEq, Repr

/-! ## Store helpers (db_api) -/

def device_allocations_of (st : DeviceState) (did : Nat) : List DeviceAllocation :=
  st.allocations.filter (fun a => a.device_id == did)

def host_allocations_of (st : HostState) (hid : Nat) : List HostAllocation :=
  st.allocations.filter (fun a => a.compute_host_id == hid)

/-- The lease windows carried by the allocations of a device; this is the
booking set the period calculus of `blazar/db/utils.py` queries. -/
def device_windows (st : DeviceState) (did : Nat) : List Window :=
  (device_allocations_of st did).filterMap (fun a =>
    (st.reservations.find? (fun r => r.id == a.reservation_id)).bind (fun r =>
      (st.leases.find? (fun l => l.id == r.lease_id)).map (fun l =>
        ⟨l.start_date, l.end_date⟩)))

/-- The lease windows carried by the allocations of a host. -/
def host_windows (st : HostState) (hid : Nat) : List Window :=
  (host_allocations_of st hid).filterMap (fun a =>
    (st.reservations.find? (fun r => r.id == a.reservation_id)).bind (fun r =>
      (st.leases.find? (fun l => l.id == r.lease_id)).map (fun l =>
        ⟨l.start_date, l.end_date⟩)))

def device_allocation_create (st : DeviceState) (did rid : Nat) : DeviceState :=
  { st with allocations := st.allocations ++ [⟨st.next_id, did, rid⟩],
            next_id := st.next_id + 1 }

def device_allocation_destroy (st : DeviceState) (aid : Nat) : DeviceState :=
  { st with allocations := st.allocations.filter (fun a => a.id != aid) }

def device_allocation_update (st : DeviceState) (aid did : Nat) : DeviceState :=
  { st with allocations := st.allocations.map (fun a =>
      if a.id == aid then { a with device_id := did } else a) }

def host_allocation_create (st : HostState) (hid rid : Nat) : HostState :=
  { st with allocations := st.allocations ++ [⟨st.next_id, hid, rid⟩],
            next_id := st.next_id + 1 }

def host_allocation_destroy (st : HostState) (aid : Nat) : HostState :=
  { st with allocations := st.allocations.filter (fun a => a.id != aid) }

def lease_update_degraded (st : DeviceState) (lid : Nat) : DeviceState :=
  { st with leases := st.leases.map (fun l =>
      if l.id == lid then { l with degraded := true } else l) }

/-- A partial flags update for a Reservation row (the `reservation_flags`
dict of the plugins). -/
structure ResvFlags where
  resources_changed : Option Bool := none
  missing_resources : Option Bool := none
deriving DecidableEq, Repr

def apply_flags (r : Reservation) (f : ResvFlags) : Reservation :=
  { r with resources_changed := f.resources_changed.getD r.resources_changed,
           missing_resources := f.missing_resources.getD r.missing_resources }

def reservation_update_flags (st : DeviceState) (rid : Nat) (f : ResvFlags) : DeviceState :=
  { st with reservations := st.reservations.map (fun r =>
      if r.id == rid then apply_flags r f else r) }

def device_reservation_update (st : DeviceState) (drid : Nat)
    (cr : Option (Int × Int)) (props : Option Filter) : DeviceState :=
  { st with device_reservations := st.device_reservations.map (fun dr =>
      if dr.id == drid then
        { dr with count_range := cr.getD dr.count_range,
                  resource_properties := props.getD dr.resource_properties }
      else dr) }

def host_reservation_update (st : HostState) (hrid : Nat)
    (cr : Option (Int × Int)) (hprops rprops : Option Filter) : HostState :=
  { st with host_reservations := st.host_reservations.map (fun hr =>
      if hr.id == hrid then
        { hr with count_range := cr.getD hr.count_range,
                  hypervisor_properties := hprops.getD hr.hypervisor_properties,
                  resource_properties := rprops.getD hr.resource_properties }
      else hr) }

/-! ## Resource matchers -/

/-- Modelled from the spec: `BasePlugin.is_project_allowed`
(`blazar/plugins/base.py` is not among the provided sources).  Spec §4.2
step 2: drop candidates whose `authorized_projects` restriction excludes
the requesting project; no restriction means always allowed. -/
def is_project_allowed (project_id : Nat) (d : Device) : Bool :=
  match d.authorized_projects with
  | none => true
  | some ps => ps.contains project_id

/-- Has the device never been allocated (no Allocation rows)? -/
def device_never_allocated (st : DeviceState) (d : Device) : Bool :=
  (device_allocations_of st d.id).isEmpty

/-- The allocated-but-free check of `_matching_devices`: the free periods of
the margin-padded window are exactly the whole padded window. -/
def device_fully_free (st : DeviceState) (swm ewm : Int) (m : Int) (d : Device) : Bool :=
  decide (freePeriods (device_windows st d.id) swm ewm m = [⟨swm, ewm⟩])

/-- The candidate loop of `DevicePlugin._matching_devices`: partition the
filtered devices into `(allocated_device_ids, not_allocated_device_ids)`,
appending in catalog order. -/
def classify_devices_loop (st : DeviceState) (m : Int) (project_id : Nat)
    (swm ewm : Int) : List Device → List Nat × List Nat → List Nat × List Nat
  | [], acc => acc
  | d :: ds, acc =>
    if !is_project_allowed project_id d then
      classify_devices_loop st m project_id swm ewm ds acc
    else if device_never_allocated st d then
      classify_devices_loop st m project_id swm ewm ds (acc.1, acc.2 ++ [d.id])
    else if device_fully_free st swm ewm m d then
      classify_devices_loop st m project_id swm ewm ds (acc.1 ++ [d.id], acc.2)
    else
      classify_devices_loop st m project_id swm ewm ds acc

/-- `DevicePlugin._matching_devices`.  The cleaning margin `m` is
`CONF.device.cleaning_time`; `shuffle` is the injectable randomness source
(`random.shuffle`). -/
def matching_devices (st : DeviceState) (m : Int) (shuffle : List Nat → List Nat)
    (props : Filter) (cmin cmax : Nat) (start_date end_date : Int)
    (project_id : Nat) : List Nat :=
  let swm := start_date - m
  let ewm := end_date + m
  let cands := st.devices.filter (fun d => matchesFilter props d.id)
  let p := classify_devices_loop st m project_id swm ewm cands ([], [])
  if cmin ≤ p.2.length then (shuffle p.2).take cmax
  else if cmin ≤ (p.1 ++ p.2).length then (shuffle (p.1 ++ p.2)).take cmax
  else []

/-- Has the host never been allocated? -/
def host_never_allocated (st : HostState) (h : Host) : Bool :=
  (host_allocations_of st h.id).isEmpty

/-- The allocated-but-free check of `_matching_hosts`. -/
def host_fully_free (st : HostState) (swm ewm : Int) (m : Int) (h : Host) : Bool :=
  decide (freePeriods (host_windows st h.id) swm ewm m = [⟨swm, ewm⟩])

/-- The candidate loop of `PhysicalHostPlugin._matching_hosts`. -/
def classify_hosts_loop (st : HostState) (m : Int) (swm ewm : Int) :
    List Host → List Nat × List Nat → List Nat × List Nat
  | [], acc => acc
  | h :: hs, acc =>
    if host_never_allocated st h then
      classify_hosts_loop st m swm ewm hs (acc.1, acc.2 ++ [h.id])
    else if host_fully_free st swm ewm m h then
      classify_hosts_loop st m swm ewm hs (acc.1 ++ [h.id], acc.2)
    else
      classify_hosts_loop st m swm ewm hs acc

/-- `PhysicalHostPlugin._matching_hosts`.  The candidate query is
`reservable_host_get_all_by_queries`, so only reservable hosts are
considered; there is no shuffle in this plugin's matcher. -/
def matching_hosts (st : HostState) (m : Int) (hprops rprops : Filter)
    (cmin cmax : Nat) (start_date end_date : Int) : List Nat :=
  let swm := start_date - m
  let ewm := end_date + m
  let cands := st.hosts.filter (fun h =>
    matchesFilter hprops h.id && matchesFilter rprops h.id && h.reservable)
  let p := classify_hosts_loop st m swm ewm cands ([], [])
  if cmin ≤ p.2.length then p.2.take cmax
  else if cmin ≤ (p.1 ++ p.2).length then (p.1 ++ p.2).take cmax
  else []

/-! ### Matcher lemmas -/

theorem classify_devices_loop_eq (st : DeviceState) (m : Int) (project_id : Nat)
    (swm ewm : Int) (l : List Device) (acc : List Nat × List Nat) :
    classify_devices_loop st m project_id swm ewm l acc =
      (acc.1 ++ (l.filter (fun d => is_project_allowed project_id d &&
          !device_never_allocated st d && device_fully_free st swm ewm m d)).map (·.id),
       acc.2 ++ (l.filter (fun d => is_project_allowed project_id d &&
          device_never_allocated st d)).map (·.id)) := by
  induction l generalizing acc with
  | nil => simp [classify_devices_loop]
  | cons d ds ih =>
    by_cases h1 : is_project_allowed project_id d
    · by_cases h2 : device_never_allocated st d
      · simp [classify_devices_loop, h1, h2, ih]
      · by_cases h3 : device_fully_free st swm ewm m d
        · simp [classify_devices_loop, h1, h2, h3, ih]
        · simp [classify_devices_loop, h1, h2, h3, ih]
    · simp [classify_devices_loop, h1, ih]

theorem classify_hosts_loop_eq (st : HostState) (m : Int) (swm ewm : Int)
    (l : List Host) (acc : List Nat × List Nat) :
    classify_hosts_loop st m swm ewm l acc =
      (acc.1 ++ (l.filter (fun h => !host_never_allocated st h &&
          host_fully_free st swm ewm m h)).map (·.id),
       acc.2 ++ (l.filter (fun h => host_never_allocated st h)).map (·.id)) := by
  induction l generalizing acc with
  | nil => simp [classify_hosts_loop]
  | cons h hs ih =>
    by_cases h2 : host_never_allocated st h
    · simp [classify_hosts_loop, h2, ih]
    · by_cases h3 : host_fully_free st swm ewm m h
      · simp [classify_hosts_loop, h2, h3, ih]
      · simp [classify_hosts_loop, h2, h3, ih]

theorem take_subperm_of_perm {l l' : List Nat} (h : List.Perm l' l) (k : Nat) :
    (l'.take k).Subperm l :=
  List.Subperm.trans (List.Sublist.subperm (List.take_sublist k l')) h.subperm

/-- Claim C1: each matcher prefers never-allocated candidates when they can
meet `min` alone, falls back to the union with the allocated-but-free
candidates, and otherwise returns the empty list; the result is always a
(shuffled) subset of the respective candidate set of size at most `max`. -/
theorem claim_C1_matcher_partition :
    (∀ (st : DeviceState) (m : Int) (shuffle : List Nat → List Nat),
      (∀ l, List.Perm (shuffle l) l) →
      ∀ (props : Filter) (cmin cmax : Nat) (s e : Int) (pid : Nat),
      let cands := st.devices.filter (fun d => matchesFilter props d.id)
      let notAlloc := (cands.filter (fun d => is_project_allowed pid d &&
        device_never_allocated st d)).map (·.id)
      let allocBF := (cands.filter (fun d => is_project_allowed pid d &&
        !device_never_allocated st d &&
        device_fully_free st (s - m) (e + m) m d)).map (·.id)
      let r := matching_devices st m shuffle props cmin cmax s e pid
      (cmin ≤ notAlloc.length → r.Subperm notAlloc ∧ r.length ≤ cmax) ∧
      (notAlloc.length < cmin → cmin ≤ (allocBF ++ notAlloc).length →
        r.Subperm (allocBF ++ notAlloc) ∧ r.length ≤ cmax) ∧
      ((allocBF ++ notAlloc).length < cmin → r = [])) ∧
    (∀ (st : HostState) (m : Int) (hprops rprops : Filter) (cmin cmax : Nat)
      (s e : Int),
      let cands := st.hosts.filter (fun h =>
        matchesFilter hprops h.id && matchesFilter rprops h.id && h.reservable)
      let notAlloc := (cands.filter (fun h => host_never_allocated st h)).map (·.id)
      let allocBF := (cands.filter (fun h => !host_never_allocated st h &&
        host_fully_free st (s - m) (e + m) m h)).map (·.id)
      let r := matching_hosts st m hprops rprops cmin cmax s e
      (cmin ≤ notAlloc.length → r.Subperm notAlloc ∧ r.length ≤ cmax) ∧
      (notAlloc.length < cmin → cmin ≤ (allocBF ++ notAlloc).length →
        r.Subperm (allocBF ++ notAlloc) ∧ r.length ≤ cmax) ∧
      ((allocBF ++ notAlloc).length < cmin → r = [])) := by
  constructor
  · intro st m shuffle hsh props cmin cmax s e pid
    simp only [matching_devices, classify_devices_loop_eq, List.nil_append]
    refine ⟨fun h1 => ?_, fun h1 h2 => ?_, fun h1 => ?_⟩
    · rw [if_pos h1]
      exact ⟨take_subperm_of_perm (hsh _) cmax, List.length_take_le cmax _⟩
    · rw [if_neg (by omega), if_pos (by simpa using h2)]
      exact ⟨take_subperm_of_perm (hsh _) cmax, List.length_take_le cmax _⟩
    · rw [List.length_append] at h1
      rw [if_neg (by omega), if_neg (by rw [List.length_append]; omega)]
  · intro st m hprops rprops cmin cmax s e
    simp only [matching_hosts, classify_hosts_loop_eq, List.nil_append]
    refine ⟨fun h1 => ?_, fun h1 h2 => ?_, fun h1 => ?_⟩
    · rw [if_pos h1]
      exact ⟨take_subperm_of_perm (List.Perm.refl _) cmax, List.length_take_le cmax _⟩
    · rw [if_neg (by omega), if_pos (by simpa using h2)]
      exact ⟨take_subperm_of_perm (List.Perm.refl _) cmax, List.length_take_le cmax _⟩
    · rw [List.length_append] at h1
      rw [if_neg (by omega), if_neg (by rw [List.length_append]; omega)]

/-- Concrete device catalog for the C1 witness: one never-allocated device. -/
def c1_dev_state : DeviceState :=
  ⟨[⟨1, true, none⟩], [], [], [], [], 10⟩

/-- Concrete host catalog for the C1 witness: one never-allocated host. -/
def c1_host_state : HostState :=
  ⟨[⟨1, true⟩], [], [], [], [], 10⟩

theorem claim_C1_matcher_partition_witness :
    (matching_devices c1_dev_state 0 (fun l => l) none 1 2 0 10 0).Subperm [1] ∧
    (matching_devices c1_dev_state 0 (fun l => l) none 1 2 0 10 0).length ≤ 2 ∧
    (matching_hosts c1_host_state 0 none none 1 2 0 10).Subperm [1] ∧
    (matching_hosts c1_host_state 0 none none 1 2 0 10).length ≤ 2 := by
  have hd := (claim_C1_matcher_partition.1 c1_dev_state 0 (fun l => l)
    (fun l => List.Perm.refl l) none 1 2 0 10 0).1 (by decide)
  have hh := (claim_C1_matcher_partition.2 c1_host_state 0 none none 1 2 0 10).1
    (by decide)
  exact ⟨hd.1, hd.2, hh.1, hh.2⟩

/-- Concrete state for the C2 counterexample: one device holding one
allocation whose lease window is `[0, 120)`. -/
def c2_state : DeviceState :=
  ⟨[⟨1, true, none⟩], [⟨2, 0, 120, 7, false⟩], [⟨3, 2, 4, .pending, false, false⟩],
   [⟨4, 3, (1, 1), none⟩], [⟨5, 1, 3⟩], 10⟩

/-- Claim C2, counterexample: with cleaning margin `m = 10`, a booking
`[0, 120)` and a probe window `[130, 180)` starting exactly `m` after the
booking's end, the device is NOT classified allocated-but-free (the
classification loop returns no allocated ids and the matcher returns
empty), contradicting the claim's "a probe starting exactly m after an
existing booking's end does qualify".  The margin is applied twice: the
matcher pads the probe window by `m` and the period calculus pads each
booking by `m` (spec §4.1). -/
theorem claim_C2_counterexample :
    device_never_allocated c2_state ⟨1, true, none⟩ = false ∧
    (120 : Int) + 10 ≤ 130 ∧
    (classify_devices_loop c2_state 10 7 (130 - 10) (180 + 10)
      (c2_state.devices.filter (fun d => matchesFilter none d.id)) ([], [])).1 = [] ∧
    matching_devices c2_state 10 (fun l => l) none 1 1 130 180 7 = [] := by
  decide

/-- Claim C2 (amended): a resource with at least one Allocation is
classified allocated-but-free iff `get_free_periods` over the margin-padded
window `[s-m, e+m)` is exactly `[(s-m, e+m)]` (first two conjuncts: device
and host matchers); and, against a single existing booking, a probe
starting less than `2m` after the booking's end does not qualify while one
starting at least `2m` after does (third conjunct), because the margin is
applied both by the matcher (probe padding) and inside the period calculus
(booking padding). -/
theorem claim_C2_allocated_but_free_amended :
    (∀ (st : DeviceState) (m : Int) (props : Filter) (pid : Nat) (s e : Int)
      (d : Device), d ∈ st.devices → (st.devices.map (·.id)).Nodup →
      matchesFilter props d.id = true → is_project_allowed pid d = true →
      device_never_allocated st d = false →
      (d.id ∈ (classify_devices_loop st m pid (s - m) (e + m)
          (st.devices.filter (fun x => matchesFilter props x.id)) ([], [])).1 ↔
        freePeriods (device_windows st d.id) (s - m) (e + m) m =
          [⟨s - m, e + m⟩])) ∧
    (∀ (st : HostState) (m : Int) (hprops rprops : Filter) (s e : Int)
      (h : Host), h ∈ st.hosts → (st.hosts.map (·.id)).Nodup →
      matchesFilter hprops h.id = true → matchesFilter rprops h.id = true →
      h.reservable = true → host_never_allocated st h = false →
      (h.id ∈ (classify_hosts_loop st m (s - m) (e + m)
          (st.hosts.filter (fun x => matchesFilter hprops x.id &&
            matchesFilter rprops x.id && x.reservable)) ([], [])).1 ↔
        freePeriods (host_windows st h.id) (s - m) (e + m) m =
          [⟨s - m, e + m⟩])) ∧
    (∀ (w : Window) (m s e : Int), 0 ≤ m → w.start < w.stop → w.stop ≤ s →
      s < e →
      (freePeriods [w] (s - m) (e + m) m = [⟨s - m, e + m⟩] ↔
        w.stop + 2 * m ≤ s)) := by
  refine ⟨?_, ?_, ?_⟩
  · intro st m props pid s e d hd hnd hf hp hna
    rw [classify_devices_loop_eq]
    simp only [List.nil_append, List.mem_map]
    constructor
    · rintro ⟨x, hx, hxid⟩
      rcases List.mem_filter.mp hx with ⟨hxc, hxg⟩
      rcases List.mem_filter.mp hxc with ⟨hxdev, _⟩
      have hxd : x = d := List.inj_on_of_nodup_map hnd hxdev hd hxid
      subst hxd
      simp only [hp, hna, Bool.and_eq_true, Bool.not_eq_true', Bool.true_and] at hxg
      exact of_decide_eq_true hxg.2
    · intro hfree
      refine ⟨d, List.mem_filter.mpr ⟨List.mem_filter.mpr ⟨hd, hf⟩, ?_⟩, rfl⟩
      simp [hp, hna, device_fully_free, hfree]
  · intro st m hprops rprops s e h hh hnd hf1 hf2 hres hna
    rw [classify_hosts_loop_eq]
    simp only [List.nil_append, List.mem_map]
    constructor
    · rintro ⟨x, hx, hxid⟩
      rcases List.mem_filter.mp hx with ⟨hxc, hxg⟩
      rcases List.mem_filter.mp hxc with ⟨hxdev, _⟩
      have hxd : x = h := List.inj_on_of_nodup_map hnd hxdev hh hxid
      subst hxd
      simp only [hna, Bool.not_eq_true', Bool.and_eq_true, Bool.true_and] at hxg
      exact of_decide_eq_true hxg.2
    · intro hfree
      refine ⟨h, List.mem_filter.mpr ⟨List.mem_filter.mpr ⟨hh, by simp [hf1, hf2, hres]⟩, ?_⟩, rfl⟩
      simp [hna, host_fully_free, hfree]
  · intro w m s e hm hw hws hse
    rw [freePeriods_eq_single_iff]
    simp only [List.mem_singleton, forall_eq, intersectsProbe, padWindow,
      Bool.and_eq_false_iff, decide_eq_false_iff_not, not_lt]
    omega

theorem claim_C2_allocated_but_free_amended_witness :
    freePeriods [⟨0, 120⟩] 130 190 10 = [⟨130, 190⟩] ↔ (120 : Int) + 2 * 10 ≤ 140 :=
  claim_C2_allocated_but_free_amended.2.2 ⟨0, 120⟩ 10 140 180
    (by decide) (by decide) (by decide) (by decide)

/-! ## Count-range validation

API parameters arrive as raw values: absent (`none`), a well-formed
integer, or a value `is_int_like` rejects. -/

inductive RawParam
  | intVal (n : Int)
  | malformed
deriving DecidableEq, Repr

/-- `_convert_int_param` (identical in both plugins). -/
def convert_int_param (p : Option RawParam) (name : String) : Except MgrErr Int :=
  match p with
  | none => .error (.missingParameter name)
  | some .malformed => .error (.malformedParameter name)
  | some (.intVal n) => .ok n

/-- `DevicePlugin._validate_min_max_range`: both bounds must be integers
at least 1, and `max ≥ min`. -/
def validate_min_max_range (pmin pmax : Option RawParam) : Except MgrErr (Int × Int) :=
  match convert_int_param pmin "min" with
  | .error e => .error e
  | .ok mn =>
    match convert_int_param pmax "max" with
    | .error e => .error e
    | .ok mx =>
      if mn ≤ 0 ∨ mx ≤ 0 then
        .error (.malformedParameter "min and max (must be greater than or equal to 1)")
      else if mx < mn then .error .invalidRange
      else .ok (mn, mx)

/-- The count-range part of `PhysicalHostPlugin._check_params`: both bounds
must be integers with `0 ≤ min ≤ max`. -/
def host_count_range (pmin pmax : Option RawParam) : Except MgrErr (Int × Int) :=
  match convert_int_param pmin "min" with
  | .error e => .error e
  | .ok mn =>
    match convert_int_param pmax "max" with
    | .error e => .error e
    | .ok mx =>
      if 0 ≤ mn ∧ mn ≤ mx then .ok (mn, mx) else .error .invalidRange

/-- The raw value of an update parameter if an integer was supplied, else
the stored default (used when re-building the persisted `count_range`; on
the paths where it is read, validation has already ruled out `malformed`). -/
def raw_or (p : Option RawParam) (dflt : Int) : Int :=
  match p with
  | some (.intVal n) => n
  | _ => dflt

/-! ## Reservation update (devices and hosts) -/

structure DeviceUpdateValues where
  min? : Option RawParam
  max? : Option RawParam
  resource_properties : Option Filter
  start_date : Int
  end_date : Int
deriving DecidableEq, Repr

structure HostUpdateValues where
  min? : Option RawParam
  max? : Option RawParam
  hypervisor_properties : Option Filter
  resource_properties : Option Filter
  start_date : Int
  end_date : Int
deriving DecidableEq, Repr

/-- `DevicePlugin._filter_devices_by_properties` (filtered catalog, or the
whole catalog for the empty filter). -/
def filter_devices_by_properties (st : DeviceState) (props : Filter) : List Device :=
  st.devices.filter (fun d => matchesFilter props d.id)

/-- `PhysicalHostPlugin._filter_hosts_by_properties`. -/
def filter_hosts_by_properties (st : HostState) (hprops rprops : Filter) : List Host :=
  st.hosts.filter (fun h => matchesFilter hprops h.id && matchesFilter rprops h.id)

/-- Was the lease window widened on either edge? -/
def window_widened (before after : Window) : Bool :=
  decide (after.start < before.start) || decide (before.stop < after.stop)

/-- The per-allocation removal test of `_allocations_to_remove`: drop the
allocation if its resource no longer matches the filter, or — when the
window was widened — if its reserved periods over the new window are not
empty and not exactly the old window clipped to the new one.  The source
passes a one-second `duration` and no cleaning margin to
`get_reserved_periods` (missing from the sources), so the spec-modelled
`reservedPeriods` is called with margin 0. -/
def device_alloc_remove_check (st : DeviceState) (before after : Window)
    (requested : List Nat) (a : DeviceAllocation) : Bool :=
  if !requested.contains a.device_id then true
  else if window_widened before after then
    let rps := reservedPeriods (device_windows st a.device_id) after.start after.stop 0
    let max_start := max before.start after.start
    let min_end := min before.stop after.stop
    !(rps.isEmpty || decide (rps = [⟨max_start, min_end⟩]))
  else false

def host_alloc_remove_check (st : HostState) (before after : Window)
    (requested : List Nat) (a : HostAllocation) : Bool :=
  if !requested.contains a.compute_host_id then true
  else if window_widened before after then
    let rps := reservedPeriods (host_windows st a.compute_host_id) after.start after.stop 0
    let max_start := max before.start after.start
    let min_end := min before.stop after.stop
    !(rps.isEmpty || decide (rps = [⟨max_start, min_end⟩]))
  else false

/-- `DevicePlugin._allocations_to_remove`. -/
def allocations_to_remove_device (st : DeviceState) (before after : Window)
    (max_devices : Int) (props : Filter) (allocs : List DeviceAllocation) :
    List DeviceAllocation :=
  let requested := (filter_devices_by_properties st props).map (·.id)
  let base := allocs.filter (device_alloc_remove_check st before after requested)
  let kept : Int := (allocs.length : Int) - base.length
  if max_devices < kept then
    base ++ (allocs.filter (fun a => !decide (a ∈ base))).take (kept - max_devices).toNat
  else base

/-- `PhysicalHostPlugin._allocations_to_remove`. -/
def allocations_to_remove_host (st : HostState) (before after : Window)
    (max_hosts : Int) (hprops rprops : Filter) (allocs : List HostAllocation) :
    List HostAllocation :=
  let requested := (filter_hosts_by_properties st hprops rprops).map (·.id)
  let base := allocs.filter (host_alloc_remove_check st before after requested)
  let kept : Int := (allocs.length : Int) - base.length
  if max_hosts < kept then
    base ++ (allocs.filter (fun a => !decide (a ∈ base))).take (kept - max_hosts).toNat
  else base

/-- `DevicePlugin._update_allocations`.  Placement-trait calls on the
active path are external Adapter calls and are not Store events. -/
def update_allocations_device (st : DeviceState) (m : Int)
    (shuffle : List Nat → List Nat) (before after : Window)
    (reservation_id : Nat) (rstatus : RStatus) (dr : DeviceReservation)
    (v : DeviceUpdateValues) (project_id : Nat) :
    DeviceState × List Event × Option MgrErr :=
  match validate_min_max_range (some (v.min?.getD (.intVal dr.count_range.1)))
      (some (v.max?.getD (.intVal dr.count_range.2))) with
  | .error err => (st, [], some err)
  | .ok (mn, mx) =>
    let props := v.resource_properties.getD dr.resource_properties
    let allocs := st.allocations.filter (fun a => a.reservation_id == reservation_id)
    let to_remove := allocations_to_remove_device st before after mx props allocs
    if to_remove ≠ [] ∧ rstatus = RStatus.active then
      (st, [], some .notEnoughHostsAvailable)
    else
      let kept : Int := (allocs.length : Int) - to_remove.length
      if kept < mx then
        let mn' := if 0 < mn - kept then mn - kept else 0
        let mx' := mx - kept
        let ids := matching_devices st m shuffle props mn'.toNat mx'.toNat
          after.start after.stop project_id
        let ev := [Event.matcher_run props mn'.toNat mx'.toNat after.start after.stop]
        if mn'.toNat ≤ ids.length then
          let st1 := ids.foldl (fun s i => device_allocation_create s i reservation_id) st
          let st2 := to_remove.foldl (fun s a => device_allocation_destroy s a.id) st1
          (st2, ev ++ ids.map (fun i => Event.alloc_created i reservation_id)
              ++ to_remove.map (fun a => Event.alloc_destroyed a.id), none)
        else (st, ev, some .notEnoughHostsAvailable)
      else
        let st2 := to_remove.foldl (fun s a => device_allocation_destroy s a.id) st
        (st2, to_remove.map (fun a => Event.alloc_destroyed a.id), none)

/-- `PhysicalHostPlugin._update_allocations`. -/
def update_allocations_host (st : HostState) (m : Int) (before after : Window)
    (reservation_id : Nat) (rstatus : RStatus) (hr : HostReservation)
    (v : HostUpdateValues) : HostState × List Event × Option MgrErr :=
  match convert_int_param (some (v.min?.getD (.intVal hr.count_range.1))) "min" with
  | .error e => (st, [], some e)
  | .ok mn =>
    match convert_int_param (some (v.max?.getD (.intVal hr.count_range.2))) "max" with
    | .error e => (st, [], some e)
    | .ok mx =>
      if mn < 0 ∨ mx < mn then (st, [], some .invalidRange)
      else
        let hprops := v.hypervisor_properties.getD hr.hypervisor_properties
        let rprops := v.resource_properties.getD hr.resource_properties
        let allocs := st.allocations.filter (fun a => a.reservation_id == reservation_id)
        let to_remove := allocations_to_remove_host st before after mx hprops rprops allocs
        if to_remove ≠ [] ∧ rstatus = RStatus.active then
          (st, [], some .notEnoughHostsAvailable)
        else
          let kept : Int := (allocs.length : Int) - to_remove.length
          if kept < mx then
            let mn' := if 0 < mn - kept then mn - kept else 0
            let mx' := mx - kept
            let ids := matching_hosts st m hprops rprops mn'.toNat mx'.toNat
              after.start after.stop
            let ev := [Event.matcher_run_host hprops rprops mn'.toNat mx'.toNat
              after.start after.stop]
            if mn'.toNat ≤ ids.length then
              let st1 := ids.foldl (fun s i => host_allocation_create s i reservation_id) st
              let st2 := to_remove.foldl (fun s a => host_allocation_destroy s a.id) st1
              (st2, ev ++ ids.map (fun i => Event.alloc_created i reservation_id)
                  ++ to_remove.map (fun a => Event.alloc_destroyed a.id), none)
            else (st, ev, some .notEnoughHostsAvailable)
          else
            let st2 := to_remove.foldl (fun s a => host_allocation_destroy s a.id) st
            (st2, to_remove.map (fun a => Event.alloc_destroyed a.id), none)

/-- `DevicePlugin.update_reservation`. -/
def update_reservation_device (st : DeviceState) (m : Int)
    (shuffle : List Nat → List Nat) (reservation_id : Nat)
    (v : DeviceUpdateValues) : DeviceState × List Event × Option MgrErr :=
  match st.reservations.find? (fun r => r.id == reservation_id) with
  | none => (st, [], some .notFound)
  | some r =>
    match st.leases.find? (fun l => l.id == r.lease_id) with
    | none => (st, [], some .notFound)
    | some lease =>
      if v.min? = none ∧ v.max? = none ∧ v.resource_properties = none ∧
         lease.start_date ≤ v.start_date ∧ v.end_date ≤ lease.end_date then
        (st, [], none)
      else
        match st.device_reservations.find? (fun dr => dr.id == r.resource_id) with
        | none => (st, [], some .notFound)
        | some dr =>
          let before : Window := ⟨lease.start_date, lease.end_date⟩
          let after : Window := ⟨v.start_date, v.end_date⟩
          match update_allocations_device st m shuffle before after
              reservation_id r.status dr v lease.project_id with
          | (st1, ev1, some err) => (st1, ev1, some err)
          | (st1, ev1, none) =>
            let has_count := v.min?.isSome || v.max?.isSome
            let cr : Option (Int × Int) :=
              if has_count then
                some (raw_or v.min? dr.count_range.1, raw_or v.max? dr.count_range.2)
              else none
            let upd := has_count || v.resource_properties.isSome
            if upd then
              (device_reservation_update st1 dr.id cr v.resource_properties,
               ev1 ++ [Event.detail_updated dr.id], none)
            else (st1, ev1, none)

/-- `PhysicalHostPlugin.update_reservation`. -/
def update_reservation_host (st : HostState) (m : Int) (reservation_id : Nat)
    (v : HostUpdateValues) : HostState × List Event × Option MgrErr :=
  match st.reservations.find? (fun r => r.id == reservation_id) with
  | none => (st, [], some .notFound)
  | some r =>
    match st.leases.find? (fun l => l.id == r.lease_id) with
    | none => (st, [], some .notFound)
    | some lease =>
      if v.min? = none ∧ v.max? = none ∧ v.hypervisor_properties = none ∧
         v.resource_properties = none ∧
         lease.start_date ≤ v.start_date ∧ v.end_date ≤ lease.end_date then
        (st, [], none)
      else
        match st.host_reservations.find? (fun hr => hr.id == r.resource_id) with
        | none => (st, [], some .notFound)
        | some hr =>
          let before : Window := ⟨lease.start_date, lease.end_date⟩
          let after : Window := ⟨v.start_date, v.end_date⟩
          match update_allocations_host st m before after
              reservation_id r.status hr v with
          | (st1, ev1, some err) => (st1, ev1, some err)
          | (st1, ev1, none) =>
            let has_count := v.min?.isSome || v.max?.isSome
            let cr : Option (Int × Int) :=
              if has_count then
                some (raw_or v.min? hr.count_range.1, raw_or v.max? hr.count_range.2)
              else none
            let upd := has_count || v.hypervisor_properties.isSome ||
              v.resource_properties.isSome
            if upd then
              (host_reservation_update st1 hr.id cr v.hypervisor_properties
                 v.resource_properties,
               ev1 ++ [Event.detail_updated hr.id], none)
            else (st1, ev1, none)

/-- Claim C3: when none of `min`, `max` or the property-filter keys are in
the update values and the new window is contained in the old lease window,
`update_reservation` returns without any Store write: the state is
unchanged, the event trace is empty and no error is raised (both
plugins). -/
theorem claim_C3_update_noop_fast_path :
    (∀ (st : DeviceState) (m : Int) (shuffle : List Nat → List Nat) (rid : Nat)
      (v : DeviceUpdateValues) (r : Reservation) (lease : Lease),
      st.reservations.find? (fun x => x.id == rid) = some r →
      st.leases.find? (fun l => l.id == r.lease_id) = some lease →
      v.min? = none → v.max? = none → v.resource_properties = none →
      lease.start_date ≤ v.start_date → v.end_date ≤ lease.end_date →
      update_reservation_device st m shuffle rid v = (st, [], none)) ∧
    (∀ (st : HostState) (m : Int) (rid : Nat) (v : HostUpdateValues)
      (r : Reservation) (lease : Lease),
      st.reservations.find? (fun x => x.id == rid) = some r →
      st.leases.find? (fun l => l.id == r.lease_id) = some lease →
      v.min? = none → v.max? = none → v.hypervisor_properties = none →
      v.resource_properties = none →
      lease.start_date ≤ v.start_date → v.end_date ≤ lease.end_date →
      update_reservation_host st m rid v = (st, [], none)) := by
  constructor
  · intro st m shuffle rid v r lease hr hl h1 h2 h3 h4 h5
    simp only [update_reservation_device, hr, hl]
    rw [if_pos ⟨h1, h2, h3, h4, h5⟩]
  · intro st m rid v r lease hr hl h1 h2 h3 h4 h5 h6
    simp only [update_reservation_host, hr, hl]
    rw [if_pos ⟨h1, h2, h3, h4, h5, h6⟩]

/-- Concrete state for the C3 witness: one lease `[0, 100)` with one
reservation. -/
def c3_dev_state : DeviceState :=
  ⟨[⟨1, true, none⟩], [⟨2, 0, 100, 7, false⟩], [⟨3, 2, 4, .pending, false, false⟩],
   [⟨4, 3, (1, 1), none⟩], [⟨5, 1, 3⟩], 10⟩

def c3_host_state : HostState :=
  ⟨[⟨1, true⟩], [⟨2, 0, 100, 7, false⟩], [⟨3, 2, 4, .pending, false, false⟩],
   [⟨4, 3, (1, 1), none, none⟩], [⟨5, 1, 3⟩], 10⟩

theorem claim_C3_update_noop_fast_path_witness :
    update_reservation_device c3_dev_state 0 (fun l => l) 3
      ⟨none, none, none, 10, 90⟩ = (c3_dev_state, [], none) ∧
    update_reservation_host c3_host_state 0 3
      ⟨none, none, none, none, 10, 90⟩ = (c3_host_state, [], none) :=
  ⟨claim_C3_update_noop_fast_path.1 c3_dev_state 0 (fun l => l) 3
      ⟨none, none, none, 10, 90⟩ ⟨3, 2, 4, .pending, false, false⟩ ⟨2, 0, 100, 7, false⟩
      (by decide) (by decide) rfl rfl rfl (by decide) (by decide),
   claim_C3_update_noop_fast_path.2 c3_host_state 0 3
      ⟨none, none, none, none, 10, 90⟩ ⟨3, 2, 4, .pending, false, false⟩ ⟨2, 0, 100, 7, false⟩
      (by decide) (by decide) rfl rfl rfl rfl (by decide) (by decide)⟩

/-- Claim C4: on an `active` Reservation, a non-empty computed removal set
makes `update_reservation` fail with the not-enough-resources error while
the state is unchanged and the event trace empty — the failure happens
before any Allocation is created or destroyed (both plugins). -/
theorem claim_C4_active_no_eviction :
    (∀ (st : DeviceState) (m : Int) (shuffle : List Nat → List Nat) (rid : Nat)
      (v : DeviceUpdateValues) (r : Reservation) (lease : Lease)
      (dr : DeviceReservation) (mn mx : Int),
      st.reservations.find? (fun x => x.id == rid) = some r →
      st.leases.find? (fun l => l.id == r.lease_id) = some lease →
      st.device_reservations.find? (fun d => d.id == r.resource_id) = some dr →
      ¬(v.min? = none ∧ v.max? = none ∧ v.resource_properties = none ∧
        lease.start_date ≤ v.start_date ∧ v.end_date ≤ lease.end_date) →
      validate_min_max_range (some (v.min?.getD (.intVal dr.count_range.1)))
        (some (v.max?.getD (.intVal dr.count_range.2))) = .ok (mn, mx) →
      r.status = RStatus.active →
      allocations_to_remove_device st ⟨lease.start_date, lease.end_date⟩
        ⟨v.start_date, v.end_date⟩ mx
        (v.resource_properties.getD dr.resource_properties)
        (st.allocations.filter (fun a => a.reservation_id == rid)) ≠ [] →
      update_reservation_device st m shuffle rid v =
        (st, [], some MgrErr.notEnoughHostsAvailable)) ∧
    (∀ (st : HostState) (m : Int) (rid : Nat) (v : HostUpdateValues)
      (r : Reservation) (lease : Lease) (hr : HostReservation) (mn mx : Int),
      st.reservations.find? (fun x => x.id == rid) = some r →
      st.leases.find? (fun l => l.id == r.lease_id) = some lease →
      st.host_reservations.find? (fun d => d.id == r.resource_id) = some hr →
      ¬(v.min? = none ∧ v.max? = none ∧ v.hypervisor_properties = none ∧
        v.resource_properties = none ∧
        lease.start_date ≤ v.start_date ∧ v.end_date ≤ lease.end_date) →
      convert_int_param (some (v.min?.getD (.intVal hr.count_range.1))) "min" = .ok mn →
      convert_int_param (some (v.max?.getD (.intVal hr.count_range.2))) "max" = .ok mx →
      ¬(mn < 0 ∨ mx < mn) →
      r.status = RStatus.active →
      allocations_to_remove_host st ⟨lease.start_date, lease.end_date⟩
        ⟨v.start_date, v.end_date⟩ mx
        (v.hypervisor_properties.getD hr.hypervisor_properties)
        (v.resource_properties.getD hr.resource_properties)
        (st.allocations.filter (fun a => a.reservation_id == rid)) ≠ [] →
      update_reservation_host st m rid v =
        (st, [], some MgrErr.notEnoughHostsAvailable)) := by
  constructor
  · intro st m shuffle rid v r lease dr mn mx hr hl hdr hfast hval hstat hrem
    simp only [update_reservation_device, hr, hl]
    rw [if_neg hfast]
    simp only [hdr, update_allocations_device, hval]
    rw [if_pos ⟨hrem, hstat⟩]
  · intro st m rid v r lease hres mn mx hr hl hdr hfast hvmin hvmax hrange hstat hrem
    simp only [update_reservation_host, hr, hl]
    rw [if_neg hfast]
    simp only [hdr, update_allocations_host, hvmin, hvmax]
    rw [if_neg hrange, if_pos ⟨hrem, hstat⟩]

/-- Concrete state for the C4 witness: an active reservation holding one
allocation whose device no longer matches the narrowed filter. -/
def c4_dev_state : DeviceState :=
  ⟨[⟨1, true, none⟩, ⟨2, true, none⟩], [⟨3, 0, 100, 7, false⟩],
   [⟨4, 3, 5, .active, false, false⟩], [⟨5, 4, (1, 1), none⟩], [⟨6, 1, 4⟩], 10⟩

def c4_host_state : HostState :=
  ⟨[⟨1, true⟩, ⟨2, true⟩], [⟨3, 0, 100, 7, false⟩],
   [⟨4, 3, 5, .active, false, false⟩], [⟨5, 4, (1, 1), none, none⟩], [⟨6, 1, 4⟩], 10⟩

theorem claim_C4_active_no_eviction_witness :
    update_reservation_device c4_dev_state 0 (fun l => l) 4
      ⟨none, none, some (some [2]), 0, 100⟩ =
      (c4_dev_state, [], some MgrErr.notEnoughHostsAvailable) ∧
    update_reservation_host c4_host_state 0 4
      ⟨none, none, none, some (some [2]), 0, 100⟩ =
      (c4_host_state, [], some MgrErr.notEnoughHostsAvailable) :=
  ⟨claim_C4_active_no_eviction.1 c4_dev_state 0 (fun l => l) 4
      ⟨none, none, some (some [2]), 0, 100⟩ ⟨4, 3, 5, .active, false, false⟩
      ⟨3, 0, 100, 7, false⟩ ⟨5, 4, (1, 1), none⟩ 1 1
      (by decide) (by decide) (by decide) (by decide) rfl rfl (by decide),
   claim_C4_active_no_eviction.2 c4_host_state 0 4
      ⟨none, none, none, some (some [2]), 0, 100⟩ ⟨4, 3, 5, .active, false, false⟩
      ⟨3, 0, 100, 7, false⟩ ⟨5, 4, (1, 1), none, none⟩ 1 1
      (by decide) (by decide) (by decide) (by decide) rfl rfl
      (by decide) rfl (by decide)⟩

theorem pos_part_eq_max (a : Int) : (if 0 < a then a else 0) = max 0 a := by
  rcases lt_trichotomy 0 a with h | h | h
  · rw [if_pos h, max_eq_right h.le]
  · rw [← h]; simp
  · rw [if_neg (by omega), max_eq_left h.le]

/-- Claim C5: on the non-fast-path of the device `update_reservation`, with
`kept` allocations surviving removal and `kept < new max`, the matcher is
invoked with count range `[max 0 (new min - kept), new max - kept]` over
the new window and filter; a shortfall fails with the not-enough-resources
error and no mutation (state unchanged, only the matcher ran); otherwise
the event trace is exactly: matcher run, then the Allocation creations,
then the destructions of the removed Allocations, then the detail-field
persist. -/
theorem claim_C5_update_resize_commit_order
    (st : DeviceState) (m : Int) (shuffle : List Nat → List Nat) (rid : Nat)
    (v : DeviceUpdateValues) (r : Reservation) (lease : Lease)
    (dr : DeviceReservation) (mn mx : Int)
    (hr : st.reservations.find? (fun x => x.id == rid) = some r)
    (hl : st.leases.find? (fun l => l.id == r.lease_id) = some lease)
    (hdr : st.device_reservations.find? (fun d => d.id == r.resource_id) = some dr)
    (hfast : ¬(v.min? = none ∧ v.max? = none ∧ v.resource_properties = none ∧
      lease.start_date ≤ v.start_date ∧ v.end_date ≤ lease.end_date))
    (hval : validate_min_max_range (some (v.min?.getD (.intVal dr.count_range.1)))
      (some (v.max?.getD (.intVal dr.count_range.2))) = .ok (mn, mx)) :
    ∀ (props : Filter) (allocs to_remove : List DeviceAllocation) (kept : Int)
      (mn' mx' : Nat) (ids : List Nat),
      props = v.resource_properties.getD dr.resource_properties →
      allocs = st.allocations.filter (fun a => a.reservation_id == rid) →
      to_remove = allocations_to_remove_device st ⟨lease.start_date, lease.end_date⟩
        ⟨v.start_date, v.end_date⟩ mx props allocs →
      kept = (allocs.length : Int) - to_remove.length →
      ¬(to_remove ≠ [] ∧ r.status = RStatus.active) →
      kept < mx →
      mn' = (max 0 (mn - kept)).toNat →
      mx' = (mx - kept).toNat →
      ids = matching_devices st m shuffle props mn' mx' v.start_date v.end_date
        lease.project_id →
      (ids.length < mn' →
        update_reservation_device st m shuffle rid v =
          (st, [Event.matcher_run props mn' mx' v.start_date v.end_date],
           some MgrErr.notEnoughHostsAvailable)) ∧
      (mn' ≤ ids.length →
        (update_reservation_device st m shuffle rid v).2.1 =
          [Event.matcher_run props mn' mx' v.start_date v.end_date] ++
            ids.map (fun i => Event.alloc_created i rid) ++
            to_remove.map (fun a => Event.alloc_destroyed a.id) ++
            (if (v.min?.isSome || v.max?.isSome || v.resource_properties.isSome) = true
              then [Event.detail_updated dr.id] else []) ∧
        (update_reservation_device st m shuffle rid v).2.2 = none) := by
  intro props allocs to_remove kept mn' mx' ids hp ha ht hk hblock hkept hmn hmx hids
  subst hp ha ht hk hmn hmx hids
  constructor
  · intro hshort
    simp only [update_reservation_device, hr, hl]
    rw [if_neg hfast]
    simp only [hdr, update_allocations_device, hval]
    rw [if_neg hblock, if_pos hkept, pos_part_eq_max,
      if_neg (not_le.mpr hshort)]
  · intro hok
    simp only [update_reservation_device, hr, hl]
    rw [if_neg hfast]
    simp only [hdr, update_allocations_device, hval]
    rw [if_neg hblock, if_pos hkept, pos_part_eq_max, if_pos hok]
    rcases Bool.eq_false_or_eq_true
      (v.min?.isSome || v.max?.isSome || v.resource_properties.isSome) with hu | hu
    · simp [hu]
    · simp [hu]

/-- Concrete state for the C5 witness: a pending reservation with no
allocations yet, growing its count range to `1-2` over two free devices. -/
def c5_state : DeviceState :=
  ⟨[⟨1, true, none⟩, ⟨2, true, none⟩], [⟨3, 0, 100, 7, false⟩],
   [⟨4, 3, 5, .pending, false, false⟩], [⟨5, 4, (1, 1), none⟩], [], 10⟩

theorem claim_C5_update_resize_commit_order_witness :
    (update_reservation_device c5_state 0 (fun l => l) 4
        ⟨some (.intVal 1), some (.intVal 2), none, 0, 100⟩).2.1 =
      [Event.matcher_run none 1 2 0 100, Event.alloc_created 1 4,
       Event.alloc_created 2 4, Event.detail_updated 5] ∧
    (update_reservation_device c5_state 0 (fun l => l) 4
        ⟨some (.intVal 1), some (.intVal 2), none, 0, 100⟩).2.2 = none := by
  have h := (claim_C5_update_resize_commit_order c5_state 0 (fun l => l) 4
    ⟨some (.intVal 1), some (.intVal 2), none, 0, 100⟩
    ⟨4, 3, 5, .pending, false, false⟩ ⟨3, 0, 100, 7, false⟩ ⟨5, 4, (1, 1), none⟩ 1 2
    (by decide) (by decide) (by decide) (by decide) rfl
    none [] [] 0 1 2 [1, 2] rfl rfl rfl rfl (by decide) (by decide) rfl rfl rfl).2
    (by decide)
  exact ⟨h.1, h.2⟩

/-! ## Reservation creation (reserve_resource) -/

def device_before_end_options : List String := ["", "default", "email"]

def host_before_end_options : List String := ["", "snapshot", "default"]

structure DeviceReserveValues where
  min? : Option RawParam
  max? : Option RawParam
  resource_properties : Option Filter
  before_end : Option String
  start_date : Int
  end_date : Int
  project_id : Nat
deriving DecidableEq, Repr

structure HostReserveValues where
  min? : Option RawParam
  max? : Option RawParam
  hypervisor_properties : Option Filter
  resource_properties : Option Filter
  before_end : Option String
  start_date : Int
  end_date : Int
deriving DecidableEq, Repr

/-- The defaulting of `resource_properties` at the top of
`allocation_candidates`: a missing or empty (falsy) value is replaced by
the configured `default_resource_properties`. -/
def effective_props (p : Option Filter) (dflt : Filter) : Filter :=
  match p with
  | some (some ids) => some ids
  | _ => dflt

/-- `DevicePlugin._check_params` (count-range and `before_end` parts; the
`resource_properties` presence check always passes on the reserve path
because `allocation_candidates` has just defaulted the key). -/
def check_params_device (v : DeviceReserveValues) : Except MgrErr (Int × Int) :=
  match validate_min_max_range v.min? v.max? with
  | .error e => .error e
  | .ok (mn, mx) =>
    let be := v.before_end.getD "default"
    if device_before_end_options.contains be then .ok (mn, mx)
    else .error (.malformedParameter "before_end")

/-- `PhysicalHostPlugin._check_params`. -/
def check_params_host (v : HostReserveValues) :
    Except MgrErr (Int × Int × Filter × Filter) :=
  match host_count_range v.min? v.max? with
  | .error e => .error e
  | .ok (mn, mx) =>
    match v.hypervisor_properties with
    | none => .error (.missingParameter "hypervisor_properties")
    | some hp =>
      match v.resource_properties with
      | none => .error (.missingParameter "resource_properties")
      | some rp =>
        let be := v.before_end.getD "default"
        if host_before_end_options.contains be then .ok (mn, mx, hp, rp)
        else .error (.malformedParameter "before_end")

/-- `DevicePlugin.allocation_candidates`: default the filter, validate,
run the matcher, and fail when fewer than `min` devices match. -/
def allocation_candidates_device (st : DeviceState) (m : Int)
    (shuffle : List Nat → List Nat) (dflt : Filter) (v : DeviceReserveValues) :
    List Event × Except MgrErr (List Nat × Int × Int × Filter) :=
  let props := effective_props v.resource_properties dflt
  match check_params_device v with
  | .error e => ([], .error e)
  | .ok (mn, mx) =>
    let ids := matching_devices st m shuffle props mn.toNat mx.toNat
      v.start_date v.end_date v.project_id
    let ev := [Event.matcher_run props mn.toNat mx.toNat v.start_date v.end_date]
    if ids.length < mn.toNat then (ev, .error .notEnoughHostsAvailable)
    else (ev, .ok (ids, mn, mx, props))

/-- `DevicePlugin.reserve_resource`. -/
def reserve_resource_device (st : DeviceState) (m : Int)
    (shuffle : List Nat → List Nat) (dflt : Filter) (reservation_id : Nat)
    (v : DeviceReserveValues) : DeviceState × List Event × Option MgrErr :=
  match allocation_candidates_device st m shuffle dflt v with
  | (ev, .error e) => (st, ev, some e)
  | (ev, .ok (ids, mn, mx, props)) =>
    if ids = [] then (st, ev, some .notEnoughDevicesAvailable)
    else
      let drid := st.next_id
      let st1 := { st with
        device_reservations := st.device_reservations ++ [⟨drid, reservation_id, (mn, mx), props⟩],
        next_id := st.next_id + 1 }
      let st2 := ids.foldl (fun s i => device_allocation_create s i reservation_id) st1
      (st2, ev ++ [Event.detail_created drid]
          ++ ids.map (fun i => Event.alloc_created i reservation_id), none)

/-- `PhysicalHostPlugin.reserve_resource` (the aggregate-pool creation is
an external Nova call, not a Store event). -/
def reserve_resource_host (st : HostState) (m : Int) (reservation_id : Nat)
    (v : HostReserveValues) : HostState × List Event × Option MgrErr :=
  match check_params_host v with
  | .error e => (st, [], some e)
  | .ok (mn, mx, hp, rp) =>
    let ids := matching_hosts st m hp rp mn.toNat mx.toNat v.start_date v.end_date
    let ev := [Event.matcher_run_host hp rp mn.toNat mx.toNat v.start_date v.end_date]
    if ids = [] then (st, ev, some .notEnoughHostsAvailable)
    else
      let hrid := st.next_id
      let st1 := { st with
        host_reservations := st.host_reservations ++ [⟨hrid, reservation_id, (mn, mx), hp, rp⟩],
        next_id := st.next_id + 1 }
      let st2 := ids.foldl (fun s i => host_allocation_create s i reservation_id) st1
      (st2, ev ++ [Event.detail_created hrid]
          ++ ids.map (fun i => Event.alloc_created i reservation_id), none)

/-- Claim C8, counterexample: on the device plugin, `min = 2, max = 0` has
`max < min` yet raises `MalformedParameter` (the `≥ 1` bound check on both
bounds fires first), not `InvalidRange` as the claim asserts. -/
theorem claim_C8_counterexample :
    validate_min_max_range (some (.intVal 2)) (some (.intVal 0)) =
      .error (.malformedParameter "min and max (must be greater than or equal to 1)") ∧
    (0 : Int) < 2 ∧
    validate_min_max_range (some (.intVal 2)) (some (.intVal 0)) ≠
      .error MgrErr.invalidRange := by
  refine ⟨rfl, by decide, ?_⟩
  intro h
  rw [show validate_min_max_range (some (.intVal 2)) (some (.intVal 0)) =
    .error (.malformedParameter "min and max (must be greater than or equal to 1)")
    from rfl] at h
  simp at h

/-- Claim C8 (amended): count-range validation happens before any Store
access — a missing bound raises `MissingParameter`, a non-integer bound
`MalformedParameter`, and `max < min` raises `InvalidRange` provided both
bounds satisfy the resource type's lower-bound convention (devices require
both bounds ≥ 1 and raise `MalformedParameter` for a bound below 1, even
when `max < min`; hosts require `min ≥ 0` and report any `max < min` as
`InvalidRange`); a validation error leaves the state unchanged with an
empty event trace. -/
theorem claim_C8_validation_amended :
    (∀ p, validate_min_max_range none p = .error (.missingParameter "min")) ∧
    (∀ n : Int, validate_min_max_range (some (.intVal n)) none =
      .error (.missingParameter "max")) ∧
    (∀ p, validate_min_max_range (some .malformed) p =
      .error (.malformedParameter "min")) ∧
    (∀ n : Int, validate_min_max_range (some (.intVal n)) (some .malformed) =
      .error (.malformedParameter "max")) ∧
    (∀ mn mx : Int, 1 ≤ mn → 1 ≤ mx → mx < mn →
      validate_min_max_range (some (.intVal mn)) (some (.intVal mx)) =
        .error MgrErr.invalidRange) ∧
    (∀ mx : Int, validate_min_max_range (some (.intVal 0)) (some (.intVal mx)) =
      .error (.malformedParameter "min and max (must be greater than or equal to 1)")) ∧
    (∀ p, host_count_range none p = .error (.missingParameter "min")) ∧
    (∀ n : Int, host_count_range (some (.intVal n)) none =
      .error (.missingParameter "max")) ∧
    (∀ p, host_count_range (some .malformed) p =
      .error (.malformedParameter "min")) ∧
    (∀ n : Int, host_count_range (some (.intVal n)) (some .malformed) =
      .error (.malformedParameter "max")) ∧
    (∀ mn mx : Int, mx < mn →
      host_count_range (some (.intVal mn)) (some (.intVal mx)) =
        .error MgrErr.invalidRange) ∧
    (∀ mx : Int, 0 ≤ mx →
      host_count_range (some (.intVal 0)) (some (.intVal mx)) = .ok (0, mx)) ∧
    (∀ (st : DeviceState) (m : Int) (shuffle : List Nat → List Nat)
      (dflt : Filter) (rid : Nat) (v : DeviceReserveValues) (e : MgrErr),
      check_params_device v = .error e →
      reserve_resource_device st m shuffle dflt rid v = (st, [], some e)) ∧
    (∀ (st : HostState) (m : Int) (rid : Nat) (v : HostReserveValues) (e : MgrErr),
      check_params_host v = .error e →
      reserve_resource_host st m rid v = (st, [], some e)) := by
  refine ⟨fun p => rfl, fun n => rfl, fun p => rfl, fun n => rfl,
    ?_, fun mx => rfl, fun p => rfl, fun n => rfl, fun p => rfl, fun n => rfl,
    ?_, ?_, ?_, ?_⟩
  · intro mn mx h1 h2 h3
    simp only [validate_min_max_range, convert_int_param]
    rw [if_neg (by omega), if_pos h3]
  · intro mn mx h
    simp only [host_count_range, convert_int_param]
    rw [if_neg (by omega)]
  · intro mx h
    simp only [host_count_range, convert_int_param]
    rw [if_pos ⟨le_refl 0, h⟩]
  · intro st m shuffle dflt rid v e hv
    simp only [reserve_resource_device, allocation_candidates_device, hv]
  · intro st m rid v e hv
    simp only [reserve_resource_host, hv]

theorem claim_C8_validation_amended_witness :
    validate_min_max_range (some (.intVal 3)) (some (.intVal 2)) =
      .error MgrErr.invalidRange ∧
    host_count_range (some (.intVal 0)) (some (.intVal 2)) = .ok (0, 2) ∧
    reserve_resource_device
      ⟨[⟨1, true, none⟩], [], [], [], [], 10⟩ 0 (fun l => l) none 4
      ⟨none, some (.intVal 1), none, none, 0, 10, 7⟩ =
      (⟨[⟨1, true, none⟩], [], [], [], [], 10⟩, [],
       some (MgrErr.missingParameter "min")) :=
  ⟨claim_C8_validation_amended.2.2.2.2.1 3 2 (by decide) (by decide) (by decide),
   claim_C8_validation_amended.2.2.2.2.2.2.2.2.2.2.2.1 2 (by decide),
   claim_C8_validation_amended.2.2.2.2.2.2.2.2.2.2.2.2.1
     ⟨[⟨1, true, none⟩], [], [], [], [], 10⟩ 0 (fun l => l) none 4
     ⟨none, some (.intVal 1), none, none, 0, 10, 7⟩
     (MgrErr.missingParameter "min") rfl⟩

theorem host_create_fold_alloc_length (ids : List Nat) (rid : Nat) (s0 : HostState) :
    ((ids.foldl (fun s i => host_allocation_create s i rid) s0).allocations).length =
      s0.allocations.length + ids.length := by
  induction ids generalizing s0 with
  | nil => simp
  | cons i is ih =>
    simp only [List.foldl]
    rw [ih]
    simp [host_allocation_create]
    omega

/-- Claim C10: host count-range validation accepts `min = 0`, yet
`reserve_resource` raises the not-enough-resources error whenever the
matcher returns an empty list (with no mutation), and a successful reserve
always creates one Allocation per matched host — so a reservation with
zero hosts can never be created. -/
theorem claim_C10_host_min_zero :
    (∀ mx : Int, 0 ≤ mx →
      host_count_range (some (.intVal 0)) (some (.intVal mx)) = .ok (0, mx)) ∧
    (∀ (st : HostState) (m : Int) (rid : Nat) (v : HostReserveValues)
      (mn mx : Int) (hp rp : Filter),
      check_params_host v = .ok (mn, mx, hp, rp) →
      matching_hosts st m hp rp mn.toNat mx.toNat v.start_date v.end_date = [] →
      reserve_resource_host st m rid v =
        (st, [Event.matcher_run_host hp rp mn.toNat mx.toNat v.start_date v.end_date],
         some MgrErr.notEnoughHostsAvailable)) ∧
    (∀ (st : HostState) (m : Int) (rid : Nat) (v : HostReserveValues)
      (mn mx : Int) (hp rp : Filter),
      check_params_host v = .ok (mn, mx, hp, rp) →
      matching_hosts st m hp rp mn.toNat mx.toNat v.start_date v.end_date ≠ [] →
      ((reserve_resource_host st m rid v).1.allocations).length =
        st.allocations.length +
        (matching_hosts st m hp rp mn.toNat mx.toNat v.start_date v.end_date).length) := by
  refine ⟨?_, ?_, ?_⟩
  · intro mx h
    simp only [host_count_range, convert_int_param]
    rw [if_pos ⟨le_refl 0, h⟩]
  · intro st m rid v mn mx hp rp hv hempty
    simp only [reserve_resource_host, hv]
    rw [if_pos hempty]
  · intro st m rid v mn mx hp rp hv hne
    simp only [reserve_resource_host, hv]
    rw [if_neg hne]
    simp [host_create_fold_alloc_length]

theorem claim_C10_host_min_zero_witness :
    host_count_range (some (.intVal 0)) (some (.intVal 0)) = .ok (0, 0) ∧
    reserve_resource_host ⟨[⟨1, true⟩], [], [], [], [], 10⟩ 0 4
      ⟨some (.intVal 0), some (.intVal 0), some none, some none, none, 0, 10⟩ =
      (⟨[⟨1, true⟩], [], [], [], [], 10⟩,
       [Event.matcher_run_host none none 0 0 0 10],
       some MgrErr.notEnoughHostsAvailable) :=
  ⟨claim_C10_host_min_zero.1 0 (by decide),
   claim_C10_host_min_zero.2.1 ⟨[⟨1, true⟩], [], [], [], [], 10⟩ 0 4
     ⟨some (.intVal 0), some (.intVal 0), some none, some none, none, 0, 10⟩
     0 0 none none rfl (by decide)⟩

/-! ## Healing (device plugin `_reallocate`, `reallocate_device`, and the
monitor healing pass) -/

/-- `DevicePlugin._reallocate`: find an alternative device for one
allocation via the matcher with count range `1-1`, the reservation's own
stored filter and the window `[max(now, lease.start), lease.end)`; update
the allocation on success (`list.pop()` takes the last element), destroy it
on failure.  The placement-trait calls on the active path are external. -/
def reallocate_alloc_device (st : DeviceState) (m : Int)
    (shuffle : List Nat → List Nat) (now : Int) (a : DeviceAllocation) :
    DeviceState × List Event × Bool :=
  match st.reservations.find? (fun r => r.id == a.reservation_id) with
  | none => (st, [], false)
  | some r =>
    match st.device_reservations.find? (fun d => d.id == r.resource_id),
          st.leases.find? (fun l => l.id == r.lease_id) with
    | some dr, some lease =>
      let start_date := max now lease.start_date
      let ids := matching_devices st m shuffle dr.resource_properties 1 1
        start_date lease.end_date lease.project_id
      let ev := [Event.matcher_run dr.resource_properties 1 1 start_date lease.end_date]
      if ids = [] then
        (device_allocation_destroy st a.id, ev ++ [Event.alloc_destroyed a.id], false)
      else
        match ids.getLast? with
        | some nid =>
          (device_allocation_update st a.id nid,
           ev ++ [Event.alloc_updated a.id nid], true)
        | none => (st, ev, false)
    | _, _ => (st, [], false)

/-- The loop body of `DevicePlugin.reallocate_device` for one affected
reservation: run `_reallocate` on its allocation of the failed device, then
set the reservation flags and mark the owning lease degraded. -/
def reallocate_device_step (st : DeviceState) (m : Int)
    (shuffle : List Nat → List Nat) (now : Int) (device_id : Nat)
    (resv : Reservation) : DeviceState × List Event :=
  match st.allocations.find? (fun x =>
      x.device_id == device_id && x.reservation_id == resv.id) with
  | none => (st, [])
  | some a =>
    match reallocate_alloc_device st m shuffle now a with
    | (st1, ev1, ok) =>
      if ok then
        if resv.status = RStatus.active then
          let st2 := lease_update_degraded st1 resv.lease_id
          let st3 := reservation_update_flags st2 resv.id ⟨some true, none⟩
          (st3, ev1 ++ [Event.lease_updated resv.lease_id,
            Event.reservation_updated resv.id])
        else
          (reservation_update_flags st1 resv.id ⟨none, none⟩,
           ev1 ++ [Event.reservation_updated resv.id])
      else
        let st2 := lease_update_degraded st1 resv.lease_id
        let st3 := reservation_update_flags st2 resv.id ⟨none, some true⟩
        (st3, ev1 ++ [Event.lease_updated resv.lease_id,
          Event.reservation_updated resv.id])

/-- Modelled from the spec: `get_reservations_by_device_ids` of
`blazar/db/utils.py` (missing from the sources).  Spec §4.4: for each
failed resource, find the Reservations holding a live Allocation on it
whose lease window intersects the healing horizon. -/
def get_reservations_by_device_ids (st : DeviceState) (ids : List Nat)
    (ib ie : Int) : List Reservation :=
  st.reservations.filter (fun r =>
    st.allocations.any (fun a => a.reservation_id == r.id && ids.contains a.device_id) &&
    (match st.leases.find? (fun l => l.id == r.lease_id) with
     | some l => decide (l.start_date < ie) && decide (ib < l.end_date)
     | none => false))

/-- `DeviceMonitorPlugin.filter_allocations`: the reservation's allocations
whose device is in the failed set. -/
def filter_allocations_device (st : DeviceState) (r : Reservation)
    (ids : List Nat) : List DeviceAllocation :=
  (st.allocations.filter (fun a => a.reservation_id == r.id)).filter
    (fun a => ids.contains a.device_id)

/-- `GeneralMonitorPlugin.heal_reservations` specialised to the device
plugin: one healing pass over the failed set (the returned flag dictionary
is applied by the caller and does not change this Store state). -/
def heal_reservations_device (st : DeviceState) (m : Int)
    (shuffle : List Nat → List Nat) (now : Int) (failed_ids : List Nat)
    (ib ie : Int) : DeviceState :=
  (get_reservations_by_device_ids st failed_ids ib ie).foldl
    (fun s r =>
      (filter_allocations_device st r failed_ids).foldl
        (fun s2 a => (reallocate_alloc_device s2 m shuffle now a).1) s)
    st

/-! ### Lookup lemmas for the healing proofs -/

theorem find?_update_key {α : Type} (key : α → Nat) (rid : Nat) (f : α → α)
    (hf : ∀ x, key (f x) = key x) (l : List α) :
    (l.map (fun x => if key x == rid then f x else x)).find?
        (fun x => key x == rid) =
      (l.find? (fun x => key x == rid)).map f := by
  induction l with
  | nil => rfl
  | cons x xs ih =>
    cases hb : (key x == rid) with
    | true =>
      have hfx : (key (f x) == rid) = true := by rw [hf]; exact hb
      simp only [List.map_cons, List.find?]
      rw [if_pos hb, hfx, hb]
      rfl
    | false =>
      simp only [List.map_cons, List.find?]
      rw [if_neg (by simp [hb]), hb, ih]

theorem find?_filter_ne_none {α : Type} (key : α → Nat) (aid : Nat) (l : List α) :
    (l.filter (fun x => key x != aid)).find? (fun x => key x == aid) = none := by
  rw [List.find?_eq_none]
  intro x hx
  rcases List.mem_filter.mp hx with ⟨_, hne⟩
  simp only [bne_iff_ne, ne_eq] at hne
  simpa using hne

theorem map_status_map_ite (l : List Reservation) (rid : Nat) (f : ResvFlags) :
    (l.map (fun r => if r.id == rid then apply_flags r f else r)).map (·.status) =
      l.map (·.status) := by
  induction l with
  | nil => rfl
  | cons r rs ih =>
    simp only [List.map_cons, ih]
    by_cases h : (r.id == rid) = true
    · rw [if_pos h]; rfl
    · rw [if_neg h]

/-- Claim C6: healing one allocation of a failed device runs the matcher
with count range `1-1`, the reservation's own stored filter, over the
window `[max(now, lease.start), lease.end)` (the trace starts with that
matcher run); on success the allocation's device reference becomes the new
device and, when the reservation is `active`, the lease is marked
`degraded` and the reservation flagged `resources_changed`; on failure the
allocation is destroyed, the reservation flagged `missing_resources` and
the lease marked `degraded`; and the reservation statuses are never
changed. -/
theorem claim_C6_reallocate_flags
    (st : DeviceState) (m : Int) (shuffle : List Nat → List Nat) (now : Int)
    (device_id : Nat) (resv : Reservation) (a : DeviceAllocation)
    (dr : DeviceReservation) (lease : Lease)
    (hfa : st.allocations.find? (fun x =>
      x.device_id == device_id && x.reservation_id == resv.id) = some a)
    (hfr : st.reservations.find? (fun r => r.id == a.reservation_id) = some resv)
    (hfdr : st.device_reservations.find? (fun d => d.id == resv.resource_id) = some dr)
    (hfl : st.leases.find? (fun l => l.id == resv.lease_id) = some lease)
    (hfr2 : st.reservations.find? (fun r => r.id == resv.id) = some resv)
    (hfa2 : st.allocations.find? (fun x => x.id == a.id) = some a) :
    ∀ ids : List Nat,
      ids = matching_devices st m shuffle dr.resource_properties 1 1
        (max now lease.start_date) lease.end_date lease.project_id →
      ((reallocate_device_step st m shuffle now device_id resv).2.head? =
        some (Event.matcher_run dr.resource_properties 1 1
          (max now lease.start_date) lease.end_date)) ∧
      (∀ nid, ids.getLast? = some nid →
        ((reallocate_device_step st m shuffle now device_id resv).1.allocations.find?
            (fun x => x.id == a.id) = some { a with device_id := nid }) ∧
        (resv.status = RStatus.active →
          ((reallocate_device_step st m shuffle now device_id resv).1.leases.find?
              (fun l => l.id == resv.lease_id) = some { lease with degraded := true }) ∧
          ((reallocate_device_step st m shuffle now device_id resv).1.reservations.find?
              (fun r => r.id == resv.id) =
            some { resv with resources_changed := true }))) ∧
      (ids = [] →
        ((reallocate_device_step st m shuffle now device_id resv).1.allocations.find?
            (fun x => x.id == a.id) = none) ∧
        ((reallocate_device_step st m shuffle now device_id resv).1.leases.find?
            (fun l => l.id == resv.lease_id) = some { lease with degraded := true }) ∧
        ((reallocate_device_step st m shuffle now device_id resv).1.reservations.find?
            (fun r => r.id == resv.id) =
          some { resv with missing_resources := true })) ∧
      ((reallocate_device_step st m shuffle now device_id resv).1.reservations.map
          (·.status) = st.reservations.map (·.status)) := by
  intro ids hids
  subst hids
  by_cases hempty : matching_devices st m shuffle dr.resource_properties 1 1
      (max now lease.start_date) lease.end_date lease.project_id = []
  · -- matcher found nothing: the allocation is destroyed
    have hred : reallocate_device_step st m shuffle now device_id resv =
        (reservation_update_flags
          (lease_update_degraded (device_allocation_destroy st a.id) resv.lease_id)
          resv.id ⟨none, some true⟩,
         [Event.matcher_run dr.resource_properties 1 1
            (max now lease.start_date) lease.end_date,
          Event.alloc_destroyed a.id] ++
          [Event.lease_updated resv.lease_id, Event.reservation_updated resv.id]) := by
      simp only [reallocate_device_step, hfa, reallocate_alloc_device, hfr, hfdr, hfl]
      rw [if_pos hempty]
      simp
    rw [hred]
    refine ⟨rfl, ?_, fun _ => ⟨?_, ?_, ?_⟩, ?_⟩
    · intro nid hnid
      rw [hempty] at hnid
      simp at hnid
    · exact find?_filter_ne_none DeviceAllocation.id a.id st.allocations
    · rw [show (reservation_update_flags
          (lease_update_degraded (device_allocation_destroy st a.id) resv.lease_id)
          resv.id ⟨none, some true⟩).leases =
        st.leases.map (fun l => if l.id == resv.lease_id then
          { l with degraded := true } else l) from rfl]
      rw [find?_update_key Lease.id resv.lease_id
        (fun l => { l with degraded := true }) (fun l => rfl), hfl]
      rfl
    · rw [show (reservation_update_flags
          (lease_update_degraded (device_allocation_destroy st a.id) resv.lease_id)
          resv.id ⟨none, some true⟩).reservations =
        st.reservations.map (fun r => if r.id == resv.id then
          apply_flags r ⟨none, some true⟩ else r) from rfl]
      rw [find?_update_key Reservation.id resv.id
        (fun r => apply_flags r ⟨none, some true⟩) (fun r => rfl), hfr2]
      rfl
    · exact map_status_map_ite st.reservations resv.id ⟨none, some true⟩
  · -- matcher found a device: the allocation is re-pointed
    rcases hlast : (matching_devices st m shuffle dr.resource_properties 1 1
        (max now lease.start_date) lease.end_date lease.project_id).getLast? with
      _ | nid
    · exact absurd (List.getLast?_eq_none_iff.mp hlast) hempty
    by_cases hact : resv.status = RStatus.active
    · have hred : reallocate_device_step st m shuffle now device_id resv =
          (reservation_update_flags
            (lease_update_degraded (device_allocation_update st a.id nid) resv.lease_id)
            resv.id ⟨some true, none⟩,
           [Event.matcher_run dr.resource_properties 1 1
              (max now lease.start_date) lease.end_date,
            Event.alloc_updated a.id nid] ++
            [Event.lease_updated resv.lease_id, Event.reservation_updated resv.id]) := by
        simp only [reallocate_device_step, hfa, reallocate_alloc_device, hfr, hfdr, hfl]
        rw [if_neg hempty, hlast]
        simp [hact]
      rw [hred]
      refine ⟨rfl, ?_, ?_, ?_⟩
      · intro nid2 hnid2
        rcases Option.some.inj hnid2 with rfl
        refine ⟨?_, fun _ => ⟨?_, ?_⟩⟩
        · rw [show (reservation_update_flags
              (lease_update_degraded (device_allocation_update st a.id nid) resv.lease_id)
              resv.id ⟨some true, none⟩).allocations =
            st.allocations.map (fun x => if x.id == a.id then
              { x with device_id := nid } else x) from rfl]
          rw [find?_update_key DeviceAllocation.id a.id
            (fun x => { x with device_id := nid }) (fun x => rfl), hfa2]
          rfl
        · rw [show (reservation_update_flags
              (lease_update_degraded (device_allocation_update st a.id nid) resv.lease_id)
              resv.id ⟨some true, none⟩).leases =
            st.leases.map (fun l => if l.id == resv.lease_id then
              { l with degraded := true } else l) from rfl]
          rw [find?_update_key Lease.id resv.lease_id
            (fun l => { l with degraded := true }) (fun l => rfl), hfl]
          rfl
        · rw [show (reservation_update_flags
              (lease_update_degraded (device_allocation_update st a.id nid) resv.lease_id)
              resv.id ⟨some true, none⟩).reservations =
            st.reservations.map (fun r => if r.id == resv.id then
              apply_flags r ⟨some true, none⟩ else r) from rfl]
          rw [find?_update_key Reservation.id resv.id
            (fun r => apply_flags r ⟨some true, none⟩) (fun r => rfl), hfr2]
          rfl
      · intro h
        exact absurd h hempty
      · exact map_status_map_ite st.reservations resv.id ⟨some true, none⟩
    · have hred : reallocate_device_step st m shuffle now device_id resv =
          (reservation_update_flags (device_allocation_update st a.id nid)
            resv.id ⟨none, none⟩,
           [Event.matcher_run dr.resource_properties 1 1
              (max now lease.start_date) lease.end_date,
            Event.alloc_updated a.id nid] ++
            [Event.reservation_updated resv.id]) := by
        simp only [reallocate_device_step, hfa, reallocate_alloc_device, hfr, hfdr, hfl]
        rw [if_neg hempty, hlast]
        simp [hact]
      rw [hred]
      refine ⟨rfl, ?_, ?_, ?_⟩
      · intro nid2 hnid2
        rcases Option.some.inj hnid2 with rfl
        refine ⟨?_, fun h => absurd h hact⟩
        rw [show (reservation_update_flags (device_allocation_update st a.id nid)
            resv.id ⟨none, none⟩).allocations =
          st.allocations.map (fun x => if x.id == a.id then
            { x with device_id := nid } else x) from rfl]
        rw [find?_update_key DeviceAllocation.id a.id
          (fun x => { x with device_id := nid }) (fun x => rfl), hfa2]
        rfl
      · intro h
        exact absurd h hempty
      · exact map_status_map_ite st.reservations resv.id ⟨none, none⟩

/-- Concrete state for the C6 witness: failed device 1 holds the only
allocation of an active reservation; device 2 is free. -/
def c6_state : DeviceState :=
  ⟨[⟨1, false, none⟩, ⟨2, true, none⟩], [⟨5, 0, 10, 7, false⟩],
   [⟨3, 5, 4, .active, false, false⟩], [⟨4, 3, (1, 1), none⟩], [⟨6, 1, 3⟩], 100⟩

theorem claim_C6_reallocate_flags_witness :
    ((reallocate_device_step c6_state 0 (fun l => l) 0 1
        ⟨3, 5, 4, .active, false, false⟩).2.head? =
      some (Event.matcher_run none 1 1 (max 0 0) 10)) ∧
    ((reallocate_device_step c6_state 0 (fun l => l) 0 1
        ⟨3, 5, 4, .active, false, false⟩).1.allocations.find?
        (fun x => x.id == 6) = some ⟨6, 2, 3⟩) ∧
    ((reallocate_device_step c6_state 0 (fun l => l) 0 1
        ⟨3, 5, 4, .active, false, false⟩).1.leases.find?
        (fun l => l.id == 5) = some ⟨5, 0, 10, 7, true⟩) ∧
    ((reallocate_device_step c6_state 0 (fun l => l) 0 1
        ⟨3, 5, 4, .active, false, false⟩).1.reservations.find?
        (fun r => r.id == 3) = some ⟨3, 5, 4, .active, false, true⟩) ∧
    ((reallocate_device_step c6_state 0 (fun l => l) 0 1
        ⟨3, 5, 4, .active, false, false⟩).1.reservations.map (·.status) =
      [RStatus.active]) := by
  have h := claim_C6_reallocate_flags c6_state 0 (fun l => l) 0 1
    ⟨3, 5, 4, .active, false, false⟩ ⟨6, 1, 3⟩ ⟨4, 3, (1, 1), none⟩
    ⟨5, 0, 10, 7, false⟩
    (by decide) (by decide) (by decide) (by decide) (by decide) (by decide)
    [2] (by decide)
  have h2 := h.2.1 2 rfl
  exact ⟨h.1, h2.1, (h2.2 rfl).1, (h2.2 rfl).2, h.2.2.2⟩

/-- Concrete state for C7: two failed (unreservable) devices, the only
allocation sitting on device 1. -/
def c7_state : DeviceState :=
  ⟨[⟨1, false, none⟩, ⟨2, false, none⟩], [⟨5, 0, 10, 7, false⟩],
   [⟨3, 5, 4, .pending, false, false⟩], [⟨4, 3, (1, 1), none⟩], [⟨6, 1, 3⟩], 100⟩

/-- Claim C7 fails on the device plugin: `_matching_devices` queries
`device_get_all_by_queries`, which does not filter on `reservable`, so a
healing pass can re-point an allocation at another device of the failed
set; a second pass over the same failed set and otherwise unchanged state
then mutates again (here the allocation flip-flops between failed devices
1 and 2), so healing is not idempotent.  (The host matcher uses
`reservable_host_get_all_by_queries` and does not have this defect.) -/
theorem claim_C7_second_pass_mutates :
    ((heal_reservations_device c7_state 0 (fun l => l) 0 [1, 2] 0 10).allocations =
      [⟨6, 2, 3⟩]) ∧
    ((heal_reservations_device
        (heal_reservations_device c7_state 0 (fun l => l) 0 [1, 2] 0 10)
        0 (fun l => l) 0 [1, 2] 0 10).allocations = [⟨6, 1, 3⟩]) ∧
    heal_reservations_device
        (heal_reservations_device c7_state 0 (fun l => l) 0 [1, 2] 0 10)
        0 (fun l => l) 0 [1, 2] 0 10 ≠
      heal_reservations_device c7_state 0 (fun l => l) 0 [1, 2] 0 10 := by
  decide

end Blazar
